import Mathlib

/-!
# MediaPlayback plugin exports (`src/MediaPlayback/Shared/dllmain.cpp`)

A shallow embedding of the C-linkage exports of the plugin and of the
graphics-device glue, together with the properties stated about them.

## Modelling conventions

* A pointer is an address (`Ptr`), `nullptr` is address `0`.
* Memory (`Mem`) maps an address to the word stored there.
* Everything the file calls but does not define (the virtual methods of
  `IMediaPlayerPlayback`, the static functions of `CMediaPlayerPlayback`, the
  host's `IUnityInterfaces` / `IUnityGraphics`) is a field of `External`: an
  arbitrary function of its arguments and of memory, giving a return value
  and the memory it leaves behind.
* `World` is the explicit program state: the three file-scope globals,
  memory, the address of the running export's automatic variable, and a
  chronological `trace` of every external call made and of every store made
  through a caller-supplied pointer.
* An export whose body can dereference a pointer it has not checked returns
  an `Option`; `none` is the dereference of `nullptr`.
* `DllMain`, `DllGetActivationFactory`, `DllCanUnloadNow` and
  `SetTimeFromUnity` touch none of this state and are left out.
-/

namespace MediaPlayback

/-! ## Platform types -/

/-- An address; `IMediaPlayerPlayback*`, `void**`, `LPCWSTR`, callbacks and so on. -/
abbrev Ptr := Nat

/-- The null pointer. -/
def nullptr : Ptr := 0

/-- Windows `HRESULT`, a signed 32-bit value. -/
abbrev HRESULT := Int

/-- Windows SDK `S_OK`. -/
def S_OK : HRESULT := 0

/-- Windows SDK `E_INVALIDARG` (`0x80070057` read as a signed 32-bit value). -/
def E_INVALIDARG : HRESULT := -2147024809

/-- Windows SDK `FAILED(hr)`, that is `hr < 0`. -/
def FAILED (hr : HRESULT) : Bool := decide (hr < 0)

/-- Unity `UnityGfxRenderer`, an enumeration passed around as its integer value. -/
abbrev UnityGfxRenderer := Int

/-- Unity `UnityGfxDeviceEventType`, the four events of `IUnityGraphics.h`. -/
inductive UnityGfxDeviceEventType where
  | kUnityGfxDeviceEventInitialize
  | kUnityGfxDeviceEventShutdown
  | kUnityGfxDeviceEventBeforeReset
  | kUnityGfxDeviceEventAfterReset
  deriving DecidableEq, Repr

open UnityGfxDeviceEventType

/-- The addresses of the two static callbacks of the file that are handed to the host. -/
inductive Callback where
  | OnGraphicsDeviceEvent
  | OnRenderEvent
  deriving DecidableEq, Repr

/-- A virtual call on an `IMediaPlayerPlayback` object, with its arguments in
declaration order.  `SetVolume` carries the `DOUBLE` as its 64-bit pattern,
since the file only passes it on. -/
inductive Call where
  | Release
  | LoadContent (pszContentLocation : Ptr)
  | Play
  | Pause
  | Stop
  | GetPlaybackTexture (d3d11TexturePtr isStereoscopic : Ptr)
  | GetDurationAndPosition (duration position : Ptr)
  | Seek (position : Int)
  | SetVolume (volume : Nat)
  | GetIUnknown (pIUnkForMediaPlayer : Ptr)
  | IsHardware4KDecodingSupported (pSupportsHardware4KVideoDecoding : Ptr)
  | SetSubtitlesCallbacks (fnEnteredCallback fnExitedCallback : Ptr)
  | GetSubtitlesTrackCount (count : Ptr)
  | GetSubtitlesTrack (index : Nat) (trackId trackLabel trackLanguage : Ptr)
  deriving DecidableEq, Repr

/-- One observable step of an export: an external call with its arguments, or
a store through a pointer supplied by the caller. -/
inductive Event where
  | method (this : Ptr) (c : Call)
  | createMediaPlayback (deviceType : UnityGfxRenderer) (unityInterfaces : Ptr)
      (fnCallback clientObject ppMediaPlayback : Ptr)
  | graphicsDeviceReady (unityInterfaces : Ptr)
  | graphicsDeviceShutdown
  | unityRenderEvent
  | getRenderer (graphics : Ptr)
  | getIUnityGraphics (unityInterfaces : Ptr)
  | registerDeviceEventCallback (graphics : Ptr) (cb : Callback)
  | unregisterDeviceEventCallback (graphics : Ptr) (cb : Callback)
  | store (p : Ptr) (v : Nat)
  deriving DecidableEq, Repr

/-- Memory: the word held at each address. -/
abbrev Mem := Ptr → Nat

/-- Everything `dllmain.cpp` uses and does not define.

* `NULL_CHK`: the macro `NULL_CHK` comes from `pch.h`, which is not among the
  sources; it makes the enclosing function return a fixed failure `HRESULT`
  when its argument is `nullptr`.  The field is that `HRESULT`.
* `kUnityGfxRenderernullptr`: the null renderer constant of the Unity header.
* `method this c`: the virtual method call `this->c` on a playback object
  (for `Release` the returned reference count, which the file ignores).
* the remaining fields: the static functions of `CMediaPlayerPlayback` and the
  member functions of the host's `IUnityGraphics` / `IUnityInterfaces`. -/
structure External where
  NULL_CHK : HRESULT
  kUnityGfxRenderernullptr : UnityGfxRenderer
  method : Ptr → Call → Mem → HRESULT × Mem
  CreateMediaPlayback : UnityGfxRenderer → Ptr → Ptr → Ptr → Ptr → Mem → HRESULT × Mem
  GraphicsDeviceReady : Ptr → Mem → Mem
  GraphicsDeviceShutdown : Mem → Mem
  UnityRenderEvent : Mem → Mem
  GetRenderer : Ptr → Mem → UnityGfxRenderer × Mem
  GetIUnityGraphics : Ptr → Mem → Ptr × Mem
  RegisterDeviceEventCallback : Ptr → Callback → Mem → Mem
  UnregisterDeviceEventCallback : Ptr → Callback → Mem → Mem

/-- The program state: the globals `s_DeviceType`, `s_UnityInterfaces`,
`s_Graphics` of the file, memory, the address `frame` at which the running
export keeps its automatic variable, and the trace of events so far. -/
structure World where
  s_DeviceType : UnityGfxRenderer
  s_UnityInterfaces : Ptr
  s_Graphics : Ptr
  mem : Mem
  frame : Ptr
  trace : List Event

/-- The state right after the library is loaded: the static initialisers of
lines 18-20 have run and nothing has been called. -/
def World.initial (X : External) (mem : Mem) (frame : Ptr) : World :=
  { s_DeviceType := X.kUnityGfxRenderernullptr
    s_UnityInterfaces := nullptr
    s_Graphics := nullptr
    mem := mem
    frame := frame
    trace := [] }

/-- Append an event to the trace. -/
def World.log (w : World) (e : Event) : World :=
  { w with trace := w.trace ++ [e] }

/-- Replace memory. -/
def World.withMem (w : World) (m : Mem) : World :=
  { w with mem := m }

/-- Store `v` at address `p`. -/
def World.write (w : World) (p : Ptr) (v : Nat) : World :=
  { w with mem := Function.update w.mem p v }

/-- Read an `unsigned int` (32 bits) at address `p`. -/
def World.readUInt (w : World) (p : Ptr) : Nat :=
  w.mem p % 2 ^ 32

/-- The virtual call `this->c` on a playback object: the call is logged, the
object's method runs on memory, its return value is handed back. -/
def invoke (X : External) (this : Ptr) (c : Call) (w : World) : HRESULT × World :=
  let r := X.method this c w.mem
  (r.1, (w.log (Event.method this c)).withMem r.2)

/-- Modelled from the spec: the macro `NULL_CHK(pointer)` comes from `pch.h`,
which is not among the sources.  "Every exported function is a null-check
followed by a single virtual-call forward": when `pointer` is null the
enclosing function returns at once with the failure `HRESULT` of the macro
(the parameter `X.NULL_CHK`) and the state untouched, otherwise it goes on
with `rest`. -/
def NULL_CHK (X : External) (pointer : Ptr) (w : World) (rest : World → HRESULT × World) :
    HRESULT × World :=
  if pointer = nullptr then (X.NULL_CHK, w) else rest w

/-- Modelled from the spec: the macro `IFR(hr)` comes from `pch.h`, which is
not among the sources.  When `hr` is a failure the enclosing function returns
it at once (`returned hr` is that return, with the automatic objects
destroyed), otherwise it goes on with `rest`. -/
def IFR {α : Type} (hr : HRESULT) (returned : HRESULT → α) (rest : α) : α :=
  if FAILED hr then returned hr else rest

/-! ## Exports that take a playback handle (lines 69-180) -/

/-- `ReleaseMediaPlayback`, lines 69-75. -/
def ReleaseMediaPlayback (X : External) (spMediaPlayback : Ptr) (w : World) : World :=
  if spMediaPlayback ≠ nullptr then
    (invoke X spMediaPlayback Call.Release w).2
  else
    w

/-- `LoadContent`, lines 78-84. -/
def LoadContent (X : External) (spMediaPlayback pszContentLocation : Ptr) (w : World) :
    HRESULT × World :=
  NULL_CHK X pszContentLocation w fun w =>
  NULL_CHK X spMediaPlayback w fun w =>
  invoke X spMediaPlayback (Call.LoadContent pszContentLocation) w

/-- `Play`, lines 86-91. -/
def Play (X : External) (spMediaPlayback : Ptr) (w : World) : HRESULT × World :=
  NULL_CHK X spMediaPlayback w fun w =>
  invoke X spMediaPlayback Call.Play w

/-- `Pause`, lines 93-98. -/
def Pause (X : External) (spMediaPlayback : Ptr) (w : World) : HRESULT × World :=
  NULL_CHK X spMediaPlayback w fun w =>
  invoke X spMediaPlayback Call.Pause w

/-- `Stop`, lines 100-105. -/
def Stop (X : External) (spMediaPlayback : Ptr) (w : World) : HRESULT × World :=
  NULL_CHK X spMediaPlayback w fun w =>
  invoke X spMediaPlayback Call.Stop w

/-- `GetPlaybackTexture`, lines 108-113. -/
def GetPlaybackTexture (X : External) (spMediaPlayback d3d11TexturePtr isStereoscopic : Ptr)
    (w : World) : HRESULT × World :=
  NULL_CHK X spMediaPlayback w fun w =>
  invoke X spMediaPlayback (Call.GetPlaybackTexture d3d11TexturePtr isStereoscopic) w

/-- `GetDurationAndPosition`, lines 116-121. -/
def GetDurationAndPosition (X : External) (spMediaPlayback duration position : Ptr)
    (w : World) : HRESULT × World :=
  NULL_CHK X spMediaPlayback w fun w =>
  invoke X spMediaPlayback (Call.GetDurationAndPosition duration position) w

/-- `Seek`, lines 123-128. -/
def Seek (X : External) (spMediaPlayback : Ptr) (position : Int) (w : World) :
    HRESULT × World :=
  NULL_CHK X spMediaPlayback w fun w =>
  invoke X spMediaPlayback (Call.Seek position) w

/-- `SetVolume`, lines 130-135. -/
def SetVolume (X : External) (spMediaPlayback : Ptr) (volume : Nat) (w : World) :
    HRESULT × World :=
  NULL_CHK X spMediaPlayback w fun w =>
  invoke X spMediaPlayback (Call.SetVolume volume) w

/-- `GetMediaPlayer`, lines 137-142. -/
def GetMediaPlayer (X : External) (spMediaPlayback pIUnkForMediaPlayer : Ptr) (w : World) :
    HRESULT × World :=
  NULL_CHK X spMediaPlayback w fun w =>
  invoke X spMediaPlayback (Call.GetIUnknown pIUnkForMediaPlayer) w

/-- `IsHardware4KDecodingSupported`, lines 144-149. -/
def IsHardware4KDecodingSupported (X : External)
    (spMediaPlayback pSupportsHardware4KVideoDecoding : Ptr) (w : World) : HRESULT × World :=
  NULL_CHK X spMediaPlayback w fun w =>
  invoke X spMediaPlayback (Call.IsHardware4KDecodingSupported pSupportsHardware4KVideoDecoding) w

/-- `SetSubtitlesCallbacks`, lines 152-157. -/
def SetSubtitlesCallbacks (X : External)
    (spMediaPlayback fnEnteredCallback fnExitedCallback : Ptr) (w : World) : HRESULT × World :=
  NULL_CHK X spMediaPlayback w fun w =>
  invoke X spMediaPlayback (Call.SetSubtitlesCallbacks fnEnteredCallback fnExitedCallback) w

/-- `GetSubtitlesTracksCount`, lines 159-165. -/
def GetSubtitlesTracksCount (X : External) (spMediaPlayback count : Ptr) (w : World) :
    HRESULT × World :=
  NULL_CHK X spMediaPlayback w fun w =>
  NULL_CHK X count w fun w =>
  invoke X spMediaPlayback (Call.GetSubtitlesTrackCount count) w

/-- `GetSubtitlesTrack`, lines 168-180.  The automatic variable `count` lives
at `w.frame`; it is set to `0`, its address is passed to the object's
`GetSubtitlesTrackCount` (whose `HRESULT` is dropped), and it is read back for
the range check. -/
def GetSubtitlesTrack (X : External) (spMediaPlayback : Ptr) (index : Nat)
    (trackId trackLabel trackLanguage : Ptr) (w : World) : HRESULT × World :=
  NULL_CHK X spMediaPlayback w fun w =>
  let count : Ptr := w.frame
  let w1 := w.write count 0
  let w2 := (invoke X spMediaPlayback (Call.GetSubtitlesTrackCount count) w1).2
  if index ≥ w2.readUInt count then
    (E_INVALIDARG, w2)
  else
    invoke X spMediaPlayback (Call.GetSubtitlesTrack index trackId trackLabel trackLanguage) w2

/-! ## Creation (lines 59-67) -/

/-- The destructor of the WRL smart pointer `ComPtr` stored at `self`: a held
object is released, an empty `ComPtr` does nothing. -/
def ComPtr.destroy (X : External) (self : Ptr) (w : World) : World :=
  let temp := w.mem self
  if temp ≠ nullptr then
    (invoke X temp Call.Release (w.write self nullptr)).2
  else
    w

/-- `CreateMediaPlayback`, lines 59-67.  The automatic `ComPtr`
`spPlayerPlayback` lives at `w.frame` and starts empty, so taking its address
releases nothing.  `IFR` returns the `HRESULT` of the factory when it is a
failure, running the destructor of the `ComPtr` on the way out.  Otherwise
`Detach` empties the `ComPtr` and the pointer it held is stored through
`p_spMediaPlayback`, which the source dereferences without a check. -/
def CreateMediaPlayback (X : External) (fnCallback clientObject p_spMediaPlayback : Ptr)
    (w : World) : Option (HRESULT × World) :=
  let spPlayerPlayback : Ptr := w.frame
  let w1 := w.write spPlayerPlayback nullptr
  let r := X.CreateMediaPlayback w1.s_DeviceType w1.s_UnityInterfaces fnCallback clientObject
    spPlayerPlayback w1.mem
  let w2 := (w1.log (Event.createMediaPlayback w1.s_DeviceType w1.s_UnityInterfaces fnCallback
    clientObject spPlayerPlayback)).withMem r.2
  IFR r.1 (fun hr => some (hr, ComPtr.destroy X spPlayerPlayback w2)) <|
    let detached := w2.mem spPlayerPlayback
    let w3 := w2.write spPlayerPlayback nullptr
    if p_spMediaPlayback = nullptr then
      none
    else
      some (S_OK, (w3.write p_spMediaPlayback detached).log (Event.store p_spMediaPlayback detached))

/-! ## Graphics-device glue (lines 186-217) -/

/-- The call `graphics->GetRenderer()` on the host's `IUnityGraphics`. -/
def IUnityGraphics.GetRenderer (X : External) (graphics : Ptr) (w : World) :
    Option (UnityGfxRenderer × World) :=
  if graphics = nullptr then none else
  let r := X.GetRenderer graphics w.mem
  some (r.1, (w.log (Event.getRenderer graphics)).withMem r.2)

/-- The call `unityInterfaces->Get<IUnityGraphics>()` on the host's `IUnityInterfaces`. -/
def IUnityInterfaces.Get (X : External) (unityInterfaces : Ptr) (w : World) :
    Option (Ptr × World) :=
  if unityInterfaces = nullptr then none else
  let r := X.GetIUnityGraphics unityInterfaces w.mem
  some (r.1, (w.log (Event.getIUnityGraphics unityInterfaces)).withMem r.2)

/-- The call `graphics->RegisterDeviceEventCallback(cb)`. -/
def IUnityGraphics.RegisterDeviceEventCallback (X : External) (graphics : Ptr) (cb : Callback)
    (w : World) : Option World :=
  if graphics = nullptr then none else
  some ((w.log (Event.registerDeviceEventCallback graphics cb)).withMem
    (X.RegisterDeviceEventCallback graphics cb w.mem))

/-- The call `graphics->UnregisterDeviceEventCallback(cb)`. -/
def IUnityGraphics.UnregisterDeviceEventCallback (X : External) (graphics : Ptr) (cb : Callback)
    (w : World) : Option World :=
  if graphics = nullptr then none else
  some ((w.log (Event.unregisterDeviceEventCallback graphics cb)).withMem
    (X.UnregisterDeviceEventCallback graphics cb w.mem))

/-- The static call `CMediaPlayerPlayback::GraphicsDeviceReady(unityInterfaces)`. -/
def GraphicsDeviceReady (X : External) (unityInterfaces : Ptr) (w : World) : World :=
  (w.log (Event.graphicsDeviceReady unityInterfaces)).withMem
    (X.GraphicsDeviceReady unityInterfaces w.mem)

/-- The static call `CMediaPlayerPlayback::GraphicsDeviceShutdown()`. -/
def GraphicsDeviceShutdown (X : External) (w : World) : World :=
  (w.log Event.graphicsDeviceShutdown).withMem (X.GraphicsDeviceShutdown w.mem)

/-- `OnGraphicsDeviceEvent`, lines 186-202: two consecutive `if` blocks. -/
def OnGraphicsDeviceEvent (X : External) (eventType : UnityGfxDeviceEventType) (w : World) :
    Option World := do
  let w ←
    if eventType = kUnityGfxDeviceEventInitialize then do
      let r ← IUnityGraphics.GetRenderer X w.s_Graphics w
      let w := { r.2 with s_DeviceType := r.1 }
      let g ← IUnityInterfaces.Get X w.s_UnityInterfaces w
      let w := { g.2 with s_Graphics := g.1 }
      pure (GraphicsDeviceReady X w.s_UnityInterfaces w)
    else
      pure w
  if eventType = kUnityGfxDeviceEventShutdown then
    let w := { w with s_DeviceType := X.kUnityGfxRenderernullptr }
    pure (GraphicsDeviceShutdown X w)
  else
    pure w

/-- `UnityPluginLoad`, lines 204-212. -/
def UnityPluginLoad (X : External) (unityInterfaces : Ptr) (w : World) : Option World := do
  let w := { w with s_UnityInterfaces := unityInterfaces }
  let g ← IUnityInterfaces.Get X w.s_UnityInterfaces w
  let w := { g.2 with s_Graphics := g.1 }
  let w ← IUnityGraphics.RegisterDeviceEventCallback X w.s_Graphics Callback.OnGraphicsDeviceEvent w
  OnGraphicsDeviceEvent X kUnityGfxDeviceEventInitialize w

/-- `UnityPluginUnload`, lines 214-217. -/
def UnityPluginUnload (X : External) (w : World) : Option World :=
  IUnityGraphics.UnregisterDeviceEventCallback X w.s_Graphics Callback.OnGraphicsDeviceEvent w

/-- `OnRenderEvent`, lines 231-234: the event id is not looked at. -/
def OnRenderEvent (X : External) (_eventID : Int) (w : World) : World :=
  (w.log Event.unityRenderEvent).withMem (X.UnityRenderEvent w.mem)

/-- `GetRenderEventFunc`, lines 239-242. -/
def GetRenderEventFunc : Callback :=
  Callback.OnRenderEvent

/-- The host delivering a sequence of device events, one after the other. -/
def deliver (X : External) : List UnityGfxDeviceEventType → World → Option World
  | [], w => some w
  | e :: es, w => (OnGraphicsDeviceEvent X e w).bind (deliver X es)

/-! ## Specification vocabulary -/

/-- The export body `run`, called with handle `this`, is a plain forward of the
virtual call `this->c`: in every state it returns what the method returns, and
the state it leaves differs from the one it started in by exactly that one
logged call and by the memory the method left. -/
def Forwards (X : External) (run : World → HRESULT × World) (this : Ptr) (c : Call) : Prop :=
  ∀ w : World,
    (run w).1 = (X.method this c w.mem).1 ∧
    (run w).2 =
      { w with trace := w.trace ++ [Event.method this c], mem := (X.method this c w.mem).2 }

/-- Memory as `GetSubtitlesTrack` presents it to the object's
`GetSubtitlesTrackCount`: the automatic variable `count` holds `0`. -/
def memBeforeCount (w : World) : Mem :=
  Function.update w.mem w.frame 0

/-- Memory after the object's `GetSubtitlesTrackCount(&count)` made by `GetSubtitlesTrack`. -/
def memAfterCount (X : External) (this : Ptr) (w : World) : Mem :=
  (X.method this (Call.GetSubtitlesTrackCount w.frame) (memBeforeCount w)).2

/-- The count the object's `GetSubtitlesTrackCount` leaves in the automatic
variable of `GetSubtitlesTrack` (still `0` when the object writes nothing). -/
def countWritten (X : External) (this : Ptr) (w : World) : Nat :=
  memAfterCount X this w w.frame % 2 ^ 32

/-- The body `run` makes exactly one call, a method call on `this`, and no store. -/
def CallsOnce (run : World → World) (this : Ptr) : Prop :=
  ∀ w : World, ∃ c : Call, (run w).trace = w.trace ++ [Event.method this c]

/-- The body `run` makes no call and no store. -/
def CallsNothing (run : World → World) : Prop :=
  ∀ w : World, (run w).trace = w.trace

/-- What the factory `CMediaPlayerPlayback::CreateMediaPlayback` returns and the
memory it leaves, when `CreateMediaPlayback` calls it in state `w`: the
automatic `ComPtr` at `w.frame` is empty at that point. -/
def factoryOutcome (X : External) (fnCallback clientObject : Ptr) (w : World) : HRESULT × Mem :=
  X.CreateMediaPlayback w.s_DeviceType w.s_UnityInterfaces fnCallback clientObject w.frame
    (Function.update w.mem w.frame nullptr)

/-- The object the factory left in the automatic `ComPtr`. -/
def created (X : External) (fnCallback clientObject : Ptr) (w : World) : Ptr :=
  (factoryOutcome X fnCallback clientObject w).2 w.frame

/-- The state `UnityPluginLoad` has reached once lines 206-208 have run with a
non-null `unityInterfaces` whose graphics interface is non-null: the two
globals are set and `OnGraphicsDeviceEvent` is registered. -/
def afterRegistration (X : External) (unityInterfaces : Ptr) (w : World) : World :=
  { w with
    s_UnityInterfaces := unityInterfaces
    s_Graphics := (X.GetIUnityGraphics unityInterfaces w.mem).1
    mem := X.RegisterDeviceEventCallback (X.GetIUnityGraphics unityInterfaces w.mem).1
      Callback.OnGraphicsDeviceEvent (X.GetIUnityGraphics unityInterfaces w.mem).2
    trace := w.trace ++ [Event.getIUnityGraphics unityInterfaces,
      Event.registerDeviceEventCallback (X.GetIUnityGraphics unityInterfaces w.mem).1
        Callback.OnGraphicsDeviceEvent] }

/-- The state `OnGraphicsDeviceEvent(kUnityGfxDeviceEventInitialize)` leaves when
it starts in `w` with non-null `s_Graphics` and `s_UnityInterfaces`: the
renderer is asked of the `s_Graphics` held on entry, then `s_Graphics` is
fetched again from `s_UnityInterfaces`, then `GraphicsDeviceReady` is called. -/
def afterInitialize (X : External) (w : World) : World :=
  { w with
    s_DeviceType := (X.GetRenderer w.s_Graphics w.mem).1
    s_Graphics :=
      (X.GetIUnityGraphics w.s_UnityInterfaces (X.GetRenderer w.s_Graphics w.mem).2).1
    mem := X.GraphicsDeviceReady w.s_UnityInterfaces
      (X.GetIUnityGraphics w.s_UnityInterfaces (X.GetRenderer w.s_Graphics w.mem).2).2
    trace := w.trace ++ [Event.getRenderer w.s_Graphics,
      Event.getIUnityGraphics w.s_UnityInterfaces,
      Event.graphicsDeviceReady w.s_UnityInterfaces] }

/-! ## A concrete environment -/

/-- A sample environment.  Its playback objects report `tracks` subtitle
tracks, answer `Play` with `S_FALSE` and every other method with `S_OK`; its
factory answers `factoryResult` and hands out the object at address `100`; the
host's graphics interface is at address `50` and reports renderer `2`. -/
def sampleExternal (tracks : Nat) (factoryResult : HRESULT) : External :=
  { NULL_CHK := E_INVALIDARG
    kUnityGfxRenderernullptr := 4
    method := fun _ c m =>
      match c with
      | Call.GetSubtitlesTrackCount p => (S_OK, Function.update m p tracks)
      | Call.Play => (1, m)
      | _ => (S_OK, m)
    CreateMediaPlayback := fun _ _ _ _ out m => (factoryResult, Function.update m out 100)
    GraphicsDeviceReady := fun _ m => m
    GraphicsDeviceShutdown := fun m => m
    UnityRenderEvent := fun m => m
    GetRenderer := fun _ m => (2, m)
    GetIUnityGraphics := fun _ m => (50, m)
    RegisterDeviceEventCallback := fun _ _ m => m
    UnregisterDeviceEventCallback := fun _ _ m => m }

/-- The state right after loading, with zeroed memory and the automatic
variables at address `1000`. -/
def sampleWorld : World :=
  World.initial (sampleExternal 0 S_OK) (fun _ => 0) 1000

/-- The sample state once the plugin is loaded: host interfaces at address
`40`, graphics interface at address `50`. -/
def loadedWorld : World :=
  { sampleWorld with s_UnityInterfaces := 40, s_Graphics := 50 }

/-- The sample state with the caller's slot at address `200` holding `55`. -/
def slotWorld : World :=
  { sampleWorld with mem := Function.update (fun _ => 0) 200 55 }

/-! ## Properties -/

/-- C1.  With a non-null playback handle, each of `Play`, `Pause`, `Stop`,
`GetPlaybackTexture`, `GetDurationAndPosition`, `Seek`, `SetVolume`,
`GetMediaPlayer`, `IsHardware4KDecodingSupported`, `SetSubtitlesCallbacks`,
`LoadContent` (content location non-null) and `GetSubtitlesTracksCount` (count
pointer non-null) calls the method of the same name on the playback object
(`GetMediaPlayer` calls `GetIUnknown`, `GetSubtitlesTracksCount` calls
`GetSubtitlesTrackCount`) with exactly the arguments it received, in the same
order, makes no other call, and returns exactly the `HRESULT` of that method. -/
theorem exports_forward_to_methods (X : External) (h : Ptr) (hh : h ≠ nullptr) :
    Forwards X (Play X h) h Call.Play ∧
    Forwards X (Pause X h) h Call.Pause ∧
    Forwards X (Stop X h) h Call.Stop ∧
    (∀ d s, Forwards X (GetPlaybackTexture X h d s) h (Call.GetPlaybackTexture d s)) ∧
    (∀ d p, Forwards X (GetDurationAndPosition X h d p) h (Call.GetDurationAndPosition d p)) ∧
    (∀ p, Forwards X (Seek X h p) h (Call.Seek p)) ∧
    (∀ v, Forwards X (SetVolume X h v) h (Call.SetVolume v)) ∧
    (∀ p, Forwards X (GetMediaPlayer X h p) h (Call.GetIUnknown p)) ∧
    (∀ p, Forwards X (IsHardware4KDecodingSupported X h p) h
      (Call.IsHardware4KDecodingSupported p)) ∧
    (∀ e x, Forwards X (SetSubtitlesCallbacks X h e x) h (Call.SetSubtitlesCallbacks e x)) ∧
    (∀ p, p ≠ nullptr → Forwards X (LoadContent X h p) h (Call.LoadContent p)) ∧
    (∀ p, p ≠ nullptr →
      Forwards X (GetSubtitlesTracksCount X h p) h (Call.GetSubtitlesTrackCount p)) := by
  refine ⟨?_, ?_, ?_, ?_, ?_, ?_, ?_, ?_, ?_, ?_, ?_, ?_⟩ <;> intros <;> intro w <;>
    simp [NULL_CHK, Play, Pause, Stop, GetPlaybackTexture, GetDurationAndPosition, Seek, SetVolume,
      GetMediaPlayer, IsHardware4KDecodingSupported, SetSubtitlesCallbacks, LoadContent,
      GetSubtitlesTracksCount, invoke, World.log, World.withMem, *]

/-- Witness for C1: handle `7` is non-null, and `Play` on it is a plain forward. -/
theorem exports_forward_to_methods_witness :
    (7 : Ptr) ≠ nullptr ∧
      Forwards (sampleExternal 0 S_OK) (Play (sampleExternal 0 S_OK) 7) 7 Call.Play :=
  ⟨by decide, (exports_forward_to_methods (sampleExternal 0 S_OK) 7 (by decide)).1⟩

/-- C2.  When a pointer that `NULL_CHK` checks is null (the handle of any of
the thirteen handle-taking exports that return an `HRESULT`, the content
location of `LoadContent`, the count pointer of `GetSubtitlesTracksCount`), the
export returns the `HRESULT` of `NULL_CHK` and leaves the state exactly as it
found it: no method of the playback object is called and nothing is stored. -/
theorem null_checked_pointer_rejected (X : External) (w : World) :
    (∀ h, LoadContent X h nullptr w = (X.NULL_CHK, w)) ∧
    (∀ p, LoadContent X nullptr p w = (X.NULL_CHK, w)) ∧
    Play X nullptr w = (X.NULL_CHK, w) ∧
    Pause X nullptr w = (X.NULL_CHK, w) ∧
    Stop X nullptr w = (X.NULL_CHK, w) ∧
    (∀ d s, GetPlaybackTexture X nullptr d s w = (X.NULL_CHK, w)) ∧
    (∀ d p, GetDurationAndPosition X nullptr d p w = (X.NULL_CHK, w)) ∧
    (∀ p, Seek X nullptr p w = (X.NULL_CHK, w)) ∧
    (∀ v, SetVolume X nullptr v w = (X.NULL_CHK, w)) ∧
    (∀ p, GetMediaPlayer X nullptr p w = (X.NULL_CHK, w)) ∧
    (∀ p, IsHardware4KDecodingSupported X nullptr p w = (X.NULL_CHK, w)) ∧
    (∀ e x, SetSubtitlesCallbacks X nullptr e x w = (X.NULL_CHK, w)) ∧
    (∀ c, GetSubtitlesTracksCount X nullptr c w = (X.NULL_CHK, w)) ∧
    (∀ h, GetSubtitlesTracksCount X h nullptr w = (X.NULL_CHK, w)) ∧
    (∀ i t l g, GetSubtitlesTrack X nullptr i t l g w = (X.NULL_CHK, w)) := by
  refine ⟨?_, ?_, ?_, ?_, ?_, ?_, ?_, ?_, ?_, ?_, ?_, ?_, ?_, ?_, ?_⟩ <;> intros <;>
    simp [NULL_CHK, Play, Pause, Stop, GetPlaybackTexture, GetDurationAndPosition, Seek, SetVolume,
      GetMediaPlayer, IsHardware4KDecodingSupported, SetSubtitlesCallbacks, LoadContent,
      GetSubtitlesTracksCount, GetSubtitlesTrack]

/-- C5.  `ReleaseMediaPlayback` with a null handle leaves the state exactly as
it found it (no call, no effect); with a non-null handle it calls `Release` on
the playback object exactly once and makes no other call. -/
theorem ReleaseMediaPlayback_releases_once (X : External) (w : World) :
    ReleaseMediaPlayback X nullptr w = w ∧
    ∀ h, h ≠ nullptr →
      ReleaseMediaPlayback X h w =
        { w with
          trace := w.trace ++ [Event.method h Call.Release]
          mem := (X.method h Call.Release w.mem).2 } := by
  refine ⟨by simp [ReleaseMediaPlayback], ?_⟩
  intro h hh
  simp [ReleaseMediaPlayback, invoke, World.log, World.withMem, hh]

/-- Witness for C5: releasing handle `7` in the sample state logs one `Release`. -/
theorem ReleaseMediaPlayback_releases_once_witness :
    (7 : Ptr) ≠ nullptr ∧
      (ReleaseMediaPlayback (sampleExternal 0 S_OK) 7 sampleWorld).trace =
        [Event.method 7 Call.Release] := by
  refine ⟨by decide, ?_⟩
  rw [(ReleaseMediaPlayback_releases_once (sampleExternal 0 S_OK) sampleWorld).2 7 (by decide)]
  rfl

/-- C4.  For a non-null playback handle whose `GetSubtitlesTrackCount` writes
count `c` and an index `i < c`, `GetSubtitlesTrack` makes two calls on the
object, the count query and then `GetSubtitlesTrack` exactly once with the same
index and the same three out-pointers, and returns exactly the `HRESULT` of
that second call. -/
theorem GetSubtitlesTrack_forwards_in_range (X : External) (h : Ptr) (i : Nat) (t l g : Ptr)
    (w : World) (hh : h ≠ nullptr) (hi : i < countWritten X h w) :
    (GetSubtitlesTrack X h i t l g w).1 =
      (X.method h (Call.GetSubtitlesTrack i t l g) (memAfterCount X h w)).1 ∧
    (GetSubtitlesTrack X h i t l g w).2 =
      { w with
        trace := w.trace ++ [Event.method h (Call.GetSubtitlesTrackCount w.frame),
          Event.method h (Call.GetSubtitlesTrack i t l g)]
        mem := (X.method h (Call.GetSubtitlesTrack i t l g) (memAfterCount X h w)).2 } := by
  have hi' := hi
  simp only [countWritten, memAfterCount, memBeforeCount] at hi'
  norm_num at hi'
  simp [NULL_CHK, GetSubtitlesTrack, invoke, World.log, World.withMem, World.write, World.readUInt,
    memAfterCount, memBeforeCount, hh]
  rw [if_neg (Nat.not_le.mpr hi')]
  exact ⟨rfl, rfl⟩

/-- Witness for C4: an object with three tracks, handle `7`, index `2`. -/
theorem GetSubtitlesTrack_forwards_in_range_witness :
    (7 : Ptr) ≠ nullptr ∧ 2 < countWritten (sampleExternal 3 S_OK) 7 sampleWorld ∧
      (GetSubtitlesTrack (sampleExternal 3 S_OK) 7 2 11 12 13 sampleWorld).2.trace =
        [Event.method 7 (Call.GetSubtitlesTrackCount 1000),
          Event.method 7 (Call.GetSubtitlesTrack 2 11 12 13)] := by
  refine ⟨by decide, by decide, ?_⟩
  rw [(GetSubtitlesTrack_forwards_in_range (sampleExternal 3 S_OK) 7 2 11 12 13 sampleWorld
    (by decide) (by decide)).2]
  rfl

/-- C6.  For a non-null playback handle and an index `i ≥ c`, where `c` is the
count the object's `GetSubtitlesTrackCount` wrote (its `HRESULT` is ignored, and
`c = 0` when it wrote nothing), `GetSubtitlesTrack` returns `E_INVALIDARG`, the
only call it makes is that count query, so the object's `GetSubtitlesTrack` is
never called, and it stores nothing of its own: memory is exactly what the
count query left, so an address other than the automatic variable that the
count query did not touch keeps its value.  In particular an object with zero
tracks has every index rejected. -/
theorem GetSubtitlesTrack_rejects_out_of_range (X : External) (h : Ptr) (w : World)
    (hh : h ≠ nullptr) :
    (∀ i t l g, countWritten X h w ≤ i →
      GetSubtitlesTrack X h i t l g w =
        (E_INVALIDARG,
          { w with
            trace := w.trace ++ [Event.method h (Call.GetSubtitlesTrackCount w.frame)]
            mem := memAfterCount X h w })) ∧
    (∀ i t l g, countWritten X h w ≤ i → ∀ j t' l' g',
      Event.method h (Call.GetSubtitlesTrack j t' l' g') ∈
        (GetSubtitlesTrack X h i t l g w).2.trace →
      Event.method h (Call.GetSubtitlesTrack j t' l' g') ∈ w.trace) ∧
    (∀ i t l g, countWritten X h w ≤ i → ∀ p, p ≠ w.frame →
      memAfterCount X h w p = memBeforeCount w p →
      (GetSubtitlesTrack X h i t l g w).2.mem p = w.mem p) ∧
    (memAfterCount X h w w.frame = memBeforeCount w w.frame → countWritten X h w = 0) ∧
    (countWritten X h w = 0 →
      ∀ i t l g, (GetSubtitlesTrack X h i t l g w).1 = E_INVALIDARG) := by
  have key : ∀ i t l g, countWritten X h w ≤ i →
      GetSubtitlesTrack X h i t l g w =
        (E_INVALIDARG,
          { w with
            trace := w.trace ++ [Event.method h (Call.GetSubtitlesTrackCount w.frame)]
            mem := memAfterCount X h w }) := by
    intro i t l g hi
    have hi' := hi
    simp only [countWritten, memAfterCount, memBeforeCount] at hi'
    norm_num at hi'
    simp [NULL_CHK, GetSubtitlesTrack, invoke, World.log, World.withMem, World.write, World.readUInt,
      memAfterCount, memBeforeCount, hh, hi']
  refine ⟨key, ?_, ?_, ?_, ?_⟩
  · intro i t l g hi j t' l' g' hmem
    rw [key i t l g hi] at hmem
    simpa using hmem
  · intro i t l g hi p hp hsame
    rw [key i t l g hi]
    simp [hsame, memBeforeCount, Function.update_noteq hp]
  · intro hsame
    simp [countWritten, hsame, memBeforeCount]
  · intro hzero i t l g
    rw [key i t l g (by omega)]

/-- Witness for C6: an object with three tracks, handle `7`, index `3`. -/
theorem GetSubtitlesTrack_rejects_out_of_range_witness :
    (7 : Ptr) ≠ nullptr ∧ countWritten (sampleExternal 3 S_OK) 7 sampleWorld ≤ 3 ∧
      (GetSubtitlesTrack (sampleExternal 3 S_OK) 7 3 11 12 13 sampleWorld).1 = E_INVALIDARG ∧
      (GetSubtitlesTrack (sampleExternal 3 S_OK) 7 3 11 12 13 sampleWorld).2.trace =
        [Event.method 7 (Call.GetSubtitlesTrackCount 1000)] := by
  rw [(GetSubtitlesTrack_rejects_out_of_range (sampleExternal 3 S_OK) 7 sampleWorld
    (by decide)).1 3 11 12 13 (by decide)]
  exact ⟨by decide, by decide, rfl, rfl⟩

/-- C7.  `CreateMediaPlayback` calls the factory
`CMediaPlayerPlayback::CreateMediaPlayback` once, with the current
`s_DeviceType`, the stored `s_UnityInterfaces`, the given callback and client
object, and the address of its automatic `ComPtr`.  If the factory returns a
failure `h`, the export returns `h` for every `p_spMediaPlayback` and the
state it leaves is fixed in full: the globals are untouched, the only events
are the factory call and the release of whatever object the factory put in
the `ComPtr`, memory is what those two calls left, and nothing is stored
through `p_spMediaPlayback`.  Otherwise, with `p_spMediaPlayback` pointing
somewhere, it returns `S_OK` and `*p_spMediaPlayback` holds the created
object, detached from the `ComPtr`. -/
theorem CreateMediaPlayback_atomic_on_failure (X : External) (cb client p : Ptr) (w : World) :
    (FAILED (factoryOutcome X cb client w).1 = true →
      CreateMediaPlayback X cb client p w =
        some ((factoryOutcome X cb client w).1,
          if created X cb client w = nullptr then
            { w with
              trace := w.trace ++
                [Event.createMediaPlayback w.s_DeviceType w.s_UnityInterfaces cb client w.frame]
              mem := (factoryOutcome X cb client w).2 }
          else
            { w with
              trace := w.trace ++
                [Event.createMediaPlayback w.s_DeviceType w.s_UnityInterfaces cb client w.frame,
                  Event.method (created X cb client w) Call.Release]
              mem := (X.method (created X cb client w) Call.Release
                (Function.update (factoryOutcome X cb client w).2 w.frame nullptr)).2 })) ∧
    (FAILED (factoryOutcome X cb client w).1 = true →
      ∃ w', CreateMediaPlayback X cb client p w = some ((factoryOutcome X cb client w).1, w') ∧
        w'.s_DeviceType = w.s_DeviceType ∧
        w'.s_UnityInterfaces = w.s_UnityInterfaces ∧
        w'.s_Graphics = w.s_Graphics ∧
        w'.frame = w.frame ∧
        w'.trace =
          w.trace ++
            Event.createMediaPlayback w.s_DeviceType w.s_UnityInterfaces cb client w.frame ::
              (if created X cb client w = nullptr then []
                else [Event.method (created X cb client w) Call.Release]) ∧
        w'.mem =
          (if created X cb client w = nullptr then (factoryOutcome X cb client w).2
            else (X.method (created X cb client w) Call.Release
              (Function.update (factoryOutcome X cb client w).2 w.frame nullptr)).2) ∧
        (∀ q v, Event.store q v ∈ w'.trace → Event.store q v ∈ w.trace)) ∧
    (FAILED (factoryOutcome X cb client w).1 = false → p ≠ nullptr →
      CreateMediaPlayback X cb client p w =
        some (S_OK,
          { w with
            trace := w.trace ++
              [Event.createMediaPlayback w.s_DeviceType w.s_UnityInterfaces cb client w.frame,
                Event.store p (created X cb client w)]
            mem := Function.update
              (Function.update (factoryOutcome X cb client w).2 w.frame nullptr) p
              (created X cb client w) })) ∧
    (FAILED (factoryOutcome X cb client w).1 = false → p ≠ nullptr →
      ∃ w', CreateMediaPlayback X cb client p w = some (S_OK, w') ∧
        w'.mem p = created X cb client w) := by
  have ok : FAILED (factoryOutcome X cb client w).1 = false → p ≠ nullptr →
      CreateMediaPlayback X cb client p w =
        some (S_OK,
          { w with
            trace := w.trace ++
              [Event.createMediaPlayback w.s_DeviceType w.s_UnityInterfaces cb client w.frame,
                Event.store p (created X cb client w)]
            mem := Function.update
              (Function.update (factoryOutcome X cb client w).2 w.frame nullptr) p
              (created X cb client w) }) := by
    intro hf hp
    simp only [factoryOutcome] at hf
    simp [IFR, CreateMediaPlayback, World.log, World.withMem, World.write, factoryOutcome, created,
      hf, hp]
  have bad : FAILED (factoryOutcome X cb client w).1 = true →
      CreateMediaPlayback X cb client p w =
        some ((factoryOutcome X cb client w).1,
          if created X cb client w = nullptr then
            { w with
              trace := w.trace ++
                [Event.createMediaPlayback w.s_DeviceType w.s_UnityInterfaces cb client w.frame]
              mem := (factoryOutcome X cb client w).2 }
          else
            { w with
              trace := w.trace ++
                [Event.createMediaPlayback w.s_DeviceType w.s_UnityInterfaces cb client w.frame,
                  Event.method (created X cb client w) Call.Release]
              mem := (X.method (created X cb client w) Call.Release
                (Function.update (factoryOutcome X cb client w).2 w.frame nullptr)).2 }) := by
    intro hf
    simp only [factoryOutcome] at hf
    by_cases hc : created X cb client w = nullptr
    · have hc' := hc
      simp only [created, factoryOutcome] at hc'
      simp [IFR, CreateMediaPlayback, ComPtr.destroy, World.log, World.withMem, World.write,
        factoryOutcome, hf, hc, hc']
    · have hc' := hc
      simp only [created, factoryOutcome] at hc'
      simp [IFR, CreateMediaPlayback, ComPtr.destroy, invoke, World.log, World.withMem, World.write,
        factoryOutcome, created, hf, hc']
  refine ⟨bad, ?_, ok, ?_⟩
  · intro hf
    refine ⟨_, bad hf, ?_⟩
    by_cases hc : created X cb client w = nullptr <;> simp [hc]
  · intro hf hp
    refine ⟨_, ok hf hp, ?_⟩
    simp

/-- Witness for C7.  Failure path: the sample factory answers `E_FAIL`
(`-2147467259`) after putting object `100` in the `ComPtr`; the export returns
that `HRESULT`, the caller's slot `200` keeps its `55`, the globals are
untouched, and the events are the factory call and the release of `100`.
Success path: the factory answers `S_OK` and slot `200` receives `100`. -/
theorem CreateMediaPlayback_atomic_on_failure_witness :
    (FAILED (factoryOutcome (sampleExternal 0 (-2147467259)) 1 2 slotWorld).1 = true ∧
      (CreateMediaPlayback (sampleExternal 0 (-2147467259)) 1 2 200 slotWorld).map
          (fun r => (r.1, r.2.mem 200, r.2.trace, r.2.s_DeviceType, r.2.s_UnityInterfaces,
            r.2.s_Graphics)) =
        some (-2147467259, 55,
          [Event.createMediaPlayback 4 0 1 2 1000, Event.method 100 Call.Release], 4, 0, 0)) ∧
    ((200 : Ptr) ≠ nullptr ∧
      FAILED (factoryOutcome (sampleExternal 0 S_OK) 1 2 sampleWorld).1 = false ∧
      (CreateMediaPlayback (sampleExternal 0 S_OK) 1 2 200 sampleWorld).map
          (fun r => (r.1, r.2.mem 200, r.2.trace)) =
        some (S_OK, 100, [Event.createMediaPlayback 4 0 1 2 1000, Event.store 200 100])) := by
  rw [(CreateMediaPlayback_atomic_on_failure (sampleExternal 0 (-2147467259)) 1 2 200
      slotWorld).1 (by decide),
    (CreateMediaPlayback_atomic_on_failure (sampleExternal 0 S_OK) 1 2 200 sampleWorld).2.2.1
      (by decide) (by decide)]
  exact ⟨⟨by decide, by decide⟩, by decide, by decide, by decide⟩

/-- `Shutdown` dereferences nothing: it runs in every state, sets the null
renderer and calls `GraphicsDeviceShutdown` once. -/
theorem OnGraphicsDeviceEvent_shutdown_eq (X : External) (w : World) :
    OnGraphicsDeviceEvent X kUnityGfxDeviceEventShutdown w =
      some { w with
        s_DeviceType := X.kUnityGfxRenderernullptr
        mem := X.GraphicsDeviceShutdown w.mem
        trace := w.trace ++ [Event.graphicsDeviceShutdown] } := by
  simp [OnGraphicsDeviceEvent, GraphicsDeviceShutdown, World.log, World.withMem]

/-- An event that is neither `Initialize` nor `Shutdown` does nothing. -/
theorem OnGraphicsDeviceEvent_other_eq (X : External) (e : UnityGfxDeviceEventType) (w : World)
    (hi : e ≠ kUnityGfxDeviceEventInitialize) (hs : e ≠ kUnityGfxDeviceEventShutdown) :
    OnGraphicsDeviceEvent X e w = some w := by
  simp [OnGraphicsDeviceEvent, hi, hs]

/-- `Initialize` with both globals non-null runs to `afterInitialize`. -/
theorem OnGraphicsDeviceEvent_initialize_eq (X : External) (w : World)
    (hg : w.s_Graphics ≠ nullptr) (hu : w.s_UnityInterfaces ≠ nullptr) :
    OnGraphicsDeviceEvent X kUnityGfxDeviceEventInitialize w = some (afterInitialize X w) := by
  simp [OnGraphicsDeviceEvent, IUnityGraphics.GetRenderer, IUnityInterfaces.Get,
    GraphicsDeviceReady, World.log, World.withMem, afterInitialize, hg, hu]

/-- Events without `Initialize` run to completion and keep a null renderer null. -/
theorem deliver_after_shutdown (X : External) (rest : List UnityGfxDeviceEventType)
    (hrest : ∀ e ∈ rest, e ≠ kUnityGfxDeviceEventInitialize) (w : World)
    (hw : w.s_DeviceType = X.kUnityGfxRenderernullptr) :
    ∃ w2, deliver X rest w = some w2 ∧ w2.s_DeviceType = X.kUnityGfxRenderernullptr := by
  induction rest generalizing w with
  | nil => exact ⟨w, rfl, hw⟩
  | cons e es ih =>
    have hes : ∀ x ∈ es, x ≠ kUnityGfxDeviceEventInitialize :=
      fun x hx => hrest x (List.mem_cons_of_mem _ hx)
    have he : e ≠ kUnityGfxDeviceEventInitialize := hrest e (List.mem_cons_self _ _)
    by_cases hs : e = kUnityGfxDeviceEventShutdown
    · subst hs
      simp only [deliver, OnGraphicsDeviceEvent_shutdown_eq, Option.some_bind]
      exact ih hes _ rfl
    · simp only [deliver, OnGraphicsDeviceEvent_other_eq X e w he hs, Option.some_bind]
      exact ih hes w hw

/-- Delivering `evs ++ more` is delivering `evs` and then `more`. -/
theorem deliver_append (X : External) (evs more : List UnityGfxDeviceEventType) (w : World) :
    deliver X (evs ++ more) w = (deliver X evs w).bind (deliver X more) := by
  induction evs generalizing w with
  | nil => simp [deliver]
  | cons e es ih =>
    simp only [List.cons_append, deliver]
    cases OnGraphicsDeviceEvent X e w with
    | none => simp
    | some w1 => simpa using ih w1

/-- The factory call logged by `CreateMediaPlayback` carries the `s_DeviceType`
of the state it is called in. -/
theorem CreateMediaPlayback_passes_device_type (X : External) (cb client p : Ptr) (w : World)
    (hp : p ≠ nullptr) :
    ∃ r, CreateMediaPlayback X cb client p w = some r ∧
      Event.createMediaPlayback w.s_DeviceType w.s_UnityInterfaces cb client w.frame ∈
        r.2.trace := by
  by_cases hf : FAILED (factoryOutcome X cb client w).1 = true
  · have hf' := hf
    simp only [factoryOutcome] at hf'
    by_cases hc : (factoryOutcome X cb client w).2 w.frame = nullptr
    · have hc' := hc
      simp only [factoryOutcome] at hc'
      simp [IFR, CreateMediaPlayback, ComPtr.destroy, World.log, World.withMem, World.write, hf', hc']
    · have hc' := hc
      simp only [factoryOutcome] at hc'
      simp [IFR, CreateMediaPlayback, ComPtr.destroy, invoke, World.log, World.withMem, World.write,
        hf', hc']
  · have hf' := hf
    simp only [factoryOutcome] at hf'
    simp [IFR, CreateMediaPlayback, World.log, World.withMem, World.write, hf', hp]

/-- C8.  With the three globals as explicit state: `OnGraphicsDeviceEvent(Initialize)`,
run with non-null `s_Graphics` and `s_UnityInterfaces`, sets `s_DeviceType` to
the renderer reported by the graphics interface held in `s_Graphics`, sets `s_Graphics` to
`s_UnityInterfaces->Get<IUnityGraphics>()` and calls
`GraphicsDeviceReady(s_UnityInterfaces)` once; `OnGraphicsDeviceEvent(Shutdown)`
sets `s_DeviceType` to the null renderer and calls `GraphicsDeviceShutdown`
once; every other event leaves the whole state unchanged and makes no call.
Hence, when no event has occurred, or when a `Shutdown` was delivered and no
`Initialize` after it, `s_DeviceType` is the null renderer and that is the
device type `CreateMediaPlayback` passes to the factory. -/
theorem OnGraphicsDeviceEvent_lifecycle (X : External) :
    (∀ w : World, w.s_Graphics ≠ nullptr → w.s_UnityInterfaces ≠ nullptr →
      OnGraphicsDeviceEvent X kUnityGfxDeviceEventInitialize w =
        some { w with
          s_DeviceType := (X.GetRenderer w.s_Graphics w.mem).1
          s_Graphics :=
            (X.GetIUnityGraphics w.s_UnityInterfaces (X.GetRenderer w.s_Graphics w.mem).2).1
          mem := X.GraphicsDeviceReady w.s_UnityInterfaces
            (X.GetIUnityGraphics w.s_UnityInterfaces (X.GetRenderer w.s_Graphics w.mem).2).2
          trace := w.trace ++ [Event.getRenderer w.s_Graphics,
            Event.getIUnityGraphics w.s_UnityInterfaces,
            Event.graphicsDeviceReady w.s_UnityInterfaces] }) ∧
    (∀ w : World,
      OnGraphicsDeviceEvent X kUnityGfxDeviceEventShutdown w =
        some { w with
          s_DeviceType := X.kUnityGfxRenderernullptr
          mem := X.GraphicsDeviceShutdown w.mem
          trace := w.trace ++ [Event.graphicsDeviceShutdown] }) ∧
    (∀ (e : UnityGfxDeviceEventType) (w : World), e ≠ kUnityGfxDeviceEventInitialize →
      e ≠ kUnityGfxDeviceEventShutdown → OnGraphicsDeviceEvent X e w = some w) ∧
    (∀ (m : Mem) (f cb client p : Ptr), p ≠ nullptr →
      ∃ r, CreateMediaPlayback X cb client p (World.initial X m f) = some r ∧
        Event.createMediaPlayback X.kUnityGfxRenderernullptr nullptr cb client f ∈ r.2.trace) ∧
    (∀ (evs rest : List UnityGfxDeviceEventType) (w w1 : World), deliver X evs w = some w1 →
      (∀ e ∈ rest, e ≠ kUnityGfxDeviceEventInitialize) →
      ∃ w2, deliver X (evs ++ kUnityGfxDeviceEventShutdown :: rest) w = some w2 ∧
        w2.s_DeviceType = X.kUnityGfxRenderernullptr ∧
        ∀ cb client p : Ptr, p ≠ nullptr →
          ∃ r, CreateMediaPlayback X cb client p w2 = some r ∧
            Event.createMediaPlayback X.kUnityGfxRenderernullptr w2.s_UnityInterfaces cb client
              w2.frame ∈ r.2.trace) := by
  refine ⟨?_, OnGraphicsDeviceEvent_shutdown_eq X, OnGraphicsDeviceEvent_other_eq X, ?_, ?_⟩
  · intro w hg hu
    rw [OnGraphicsDeviceEvent_initialize_eq X w hg hu]
    rfl
  · intro m f cb client p hp
    exact CreateMediaPlayback_passes_device_type X cb client p (World.initial X m f) hp
  · intro evs rest w w1 hrun hrest
    obtain ⟨w2, hw2, hdev⟩ := deliver_after_shutdown X (kUnityGfxDeviceEventShutdown :: rest)
      (by
        intro e he
        rcases List.mem_cons.mp he with h | h
        · rw [h]; decide
        · exact hrest e h) { w1 with s_DeviceType := X.kUnityGfxRenderernullptr } rfl
    have hsame : deliver X (kUnityGfxDeviceEventShutdown :: rest) w1 = some w2 := by
      simpa [deliver, OnGraphicsDeviceEvent_shutdown_eq] using hw2
    refine ⟨w2, ?_, hdev, ?_⟩
    · rw [deliver_append, hrun]
      simpa using hsame
    · intro cb client p hp
      have := CreateMediaPlayback_passes_device_type X cb client p w2 hp
      rwa [hdev] at this

/-- Witness for C8: `Initialize` in the loaded sample state. -/
theorem OnGraphicsDeviceEvent_lifecycle_witness :
    loadedWorld.s_Graphics ≠ nullptr ∧ loadedWorld.s_UnityInterfaces ≠ nullptr ∧
      (OnGraphicsDeviceEvent (sampleExternal 0 S_OK) kUnityGfxDeviceEventInitialize
          loadedWorld).map (fun w => (w.s_DeviceType, w.s_Graphics, w.trace)) =
        some (2, 50, [Event.getRenderer 50, Event.getIUnityGraphics 40,
          Event.graphicsDeviceReady 40]) := by
  rw [(OnGraphicsDeviceEvent_lifecycle (sampleExternal 0 S_OK)).1 loadedWorld
    (by decide) (by decide)]
  exact ⟨by decide, by decide, by decide⟩

/-- C9.  For a non-null host interfaces pointer `u` whose graphics interface
is non-null, `UnityPluginLoad(u)` is the same as setting the two globals,
registering `OnGraphicsDeviceEvent` on the graphics interface and then
delivering one `Initialize` event: it ends with `s_UnityInterfaces = u`,
`s_Graphics` the result of `u->Get<IUnityGraphics>()`, `s_DeviceType` the
renderer of the graphics interface, the callback registered exactly once and
`GraphicsDeviceReady(u)` called once.  When the host hands out the same
graphics interface on every query, `s_Graphics` is the interface the callback
was registered on.  `UnityPluginUnload`, run with non-null `s_Graphics`,
unregisters that same callback and changes no global. -/
theorem UnityPluginLoad_delivers_first_event (X : External) (u : Ptr) (w : World)
    (hu : u ≠ nullptr) (hg : (X.GetIUnityGraphics u w.mem).1 ≠ nullptr) :
    UnityPluginLoad X u w =
      OnGraphicsDeviceEvent X kUnityGfxDeviceEventInitialize (afterRegistration X u w) ∧
    UnityPluginLoad X u w = some (afterInitialize X (afterRegistration X u w)) ∧
    (afterInitialize X (afterRegistration X u w)).s_UnityInterfaces = u ∧
    (afterInitialize X (afterRegistration X u w)).s_Graphics =
      (X.GetIUnityGraphics u
        (X.GetRenderer (X.GetIUnityGraphics u w.mem).1 (afterRegistration X u w).mem).2).1 ∧
    (afterInitialize X (afterRegistration X u w)).s_DeviceType =
      (X.GetRenderer (X.GetIUnityGraphics u w.mem).1 (afterRegistration X u w).mem).1 ∧
    (afterInitialize X (afterRegistration X u w)).trace =
      w.trace ++ [Event.getIUnityGraphics u,
        Event.registerDeviceEventCallback (X.GetIUnityGraphics u w.mem).1
          Callback.OnGraphicsDeviceEvent,
        Event.getRenderer (X.GetIUnityGraphics u w.mem).1,
        Event.getIUnityGraphics u,
        Event.graphicsDeviceReady u] ∧
    ((∀ m m' : Mem, (X.GetIUnityGraphics u m).1 = (X.GetIUnityGraphics u m').1) →
      (afterInitialize X (afterRegistration X u w)).s_Graphics =
        (X.GetIUnityGraphics u w.mem).1) ∧
    (∀ v : World, v.s_Graphics ≠ nullptr →
      UnityPluginUnload X v =
        some { v with
          mem := X.UnregisterDeviceEventCallback v.s_Graphics Callback.OnGraphicsDeviceEvent v.mem
          trace := v.trace ++
            [Event.unregisterDeviceEventCallback v.s_Graphics Callback.OnGraphicsDeviceEvent] }) := by
  have hreg : UnityPluginLoad X u w =
      OnGraphicsDeviceEvent X kUnityGfxDeviceEventInitialize (afterRegistration X u w) := by
    simp [UnityPluginLoad, IUnityInterfaces.Get, IUnityGraphics.RegisterDeviceEventCallback,
      World.log, World.withMem, afterRegistration, hu, hg]
  refine ⟨hreg, ?_, rfl, rfl, rfl, ?_, ?_, ?_⟩
  · rw [hreg]
    exact OnGraphicsDeviceEvent_initialize_eq X _ hg hu
  · simp [afterInitialize, afterRegistration]
  · intro hstable
    exact hstable _ _
  · intro v hv
    simp [UnityPluginUnload, IUnityGraphics.UnregisterDeviceEventCallback, World.log,
      World.withMem, hv]

/-- Witness for C9: loading the plugin into the sample state with host
interfaces at address `40`. -/
theorem UnityPluginLoad_delivers_first_event_witness :
    (40 : Ptr) ≠ nullptr ∧
      ((sampleExternal 0 S_OK).GetIUnityGraphics 40 sampleWorld.mem).1 ≠ nullptr ∧
      (UnityPluginLoad (sampleExternal 0 S_OK) 40 sampleWorld).map
          (fun w => (w.s_UnityInterfaces, w.s_Graphics, w.s_DeviceType, w.trace)) =
        some (40, 50, 2, [Event.getIUnityGraphics 40,
          Event.registerDeviceEventCallback 50 Callback.OnGraphicsDeviceEvent,
          Event.getRenderer 50, Event.getIUnityGraphics 40, Event.graphicsDeviceReady 40]) := by
  rw [(UnityPluginLoad_delivers_first_event (sampleExternal 0 S_OK) 40 sampleWorld
    (by decide) (by decide)).2.1]
  exact ⟨by decide, by decide, by decide⟩

/-- C3, as stated, fails: `GetSubtitlesTrack` with an index in range makes two
calls on the playback object, and `CreateMediaPlayback` stores through its
out-pointer without a check, so a null out-pointer is dereferenced. -/
theorem single_forward_counterexample :
    (7 : Ptr) ≠ nullptr ∧ (11 : Ptr) ≠ nullptr ∧ (12 : Ptr) ≠ nullptr ∧ (13 : Ptr) ≠ nullptr ∧
      (GetSubtitlesTrack (sampleExternal 1 S_OK) 7 0 11 12 13 sampleWorld).2.trace =
        [Event.method 7 (Call.GetSubtitlesTrackCount 1000),
          Event.method 7 (Call.GetSubtitlesTrack 0 11 12 13)] ∧
      CreateMediaPlayback (sampleExternal 1 S_OK) 1 2 nullptr sampleWorld = none := by
  refine ⟨by decide, by decide, by decide, by decide, by decide, ?_⟩
  simp [IFR, CreateMediaPlayback, sampleExternal, FAILED, S_OK]

/-- C3, amended.  Every export that takes a playback handle checks the handle
for null before using it, as `LoadContent` does its content location and
`GetSubtitlesTracksCount` its count pointer: with such a pointer null, no call
and no store is made.  With non-null pointers, each of `LoadContent`, `Play`,
`Pause`, `Stop`, `GetPlaybackTexture`, `GetDurationAndPosition`, `Seek`,
`SetVolume`, `GetMediaPlayer`, `IsHardware4KDecodingSupported`,
`SetSubtitlesCallbacks`, `GetSubtitlesTracksCount` and `ReleaseMediaPlayback`
makes exactly one method call on the playback object, while `GetSubtitlesTrack`
calls `GetSubtitlesTrackCount` and then, only when the index is below the count
written, `GetSubtitlesTrack`: two calls in range, one out of range. -/
theorem exports_null_check_then_forward (X : External) :
    (∀ h : Ptr, h ≠ nullptr →
      (∀ p, p ≠ nullptr → CallsOnce (fun w => (LoadContent X h p w).2) h) ∧
      CallsOnce (fun w => (Play X h w).2) h ∧
      CallsOnce (fun w => (Pause X h w).2) h ∧
      CallsOnce (fun w => (Stop X h w).2) h ∧
      (∀ d s, CallsOnce (fun w => (GetPlaybackTexture X h d s w).2) h) ∧
      (∀ d p, CallsOnce (fun w => (GetDurationAndPosition X h d p w).2) h) ∧
      (∀ p, CallsOnce (fun w => (Seek X h p w).2) h) ∧
      (∀ v, CallsOnce (fun w => (SetVolume X h v w).2) h) ∧
      (∀ p, CallsOnce (fun w => (GetMediaPlayer X h p w).2) h) ∧
      (∀ p, CallsOnce (fun w => (IsHardware4KDecodingSupported X h p w).2) h) ∧
      (∀ e x, CallsOnce (fun w => (SetSubtitlesCallbacks X h e x w).2) h) ∧
      (∀ c, c ≠ nullptr → CallsOnce (fun w => (GetSubtitlesTracksCount X h c w).2) h) ∧
      CallsOnce (ReleaseMediaPlayback X h) h ∧
      (∀ i t l g w,
        (GetSubtitlesTrack X h i t l g w).2.trace =
          w.trace ++ Event.method h (Call.GetSubtitlesTrackCount w.frame) ::
            (if i < countWritten X h w then [Event.method h (Call.GetSubtitlesTrack i t l g)]
              else []))) ∧
    (∀ h, CallsNothing (fun w => (LoadContent X h nullptr w).2)) ∧
    (∀ p, CallsNothing (fun w => (LoadContent X nullptr p w).2)) ∧
    CallsNothing (fun w => (Play X nullptr w).2) ∧
    CallsNothing (fun w => (Pause X nullptr w).2) ∧
    CallsNothing (fun w => (Stop X nullptr w).2) ∧
    (∀ d s, CallsNothing (fun w => (GetPlaybackTexture X nullptr d s w).2)) ∧
    (∀ d p, CallsNothing (fun w => (GetDurationAndPosition X nullptr d p w).2)) ∧
    (∀ p, CallsNothing (fun w => (Seek X nullptr p w).2)) ∧
    (∀ v, CallsNothing (fun w => (SetVolume X nullptr v w).2)) ∧
    (∀ p, CallsNothing (fun w => (GetMediaPlayer X nullptr p w).2)) ∧
    (∀ p, CallsNothing (fun w => (IsHardware4KDecodingSupported X nullptr p w).2)) ∧
    (∀ e x, CallsNothing (fun w => (SetSubtitlesCallbacks X nullptr e x w).2)) ∧
    (∀ c, CallsNothing (fun w => (GetSubtitlesTracksCount X nullptr c w).2)) ∧
    (∀ h, CallsNothing (fun w => (GetSubtitlesTracksCount X h nullptr w).2)) ∧
    (∀ i t l g, CallsNothing (fun w => (GetSubtitlesTrack X nullptr i t l g w).2)) ∧
    CallsNothing (ReleaseMediaPlayback X nullptr) := by
  refine ⟨?_, ?_, ?_, ?_, ?_, ?_, ?_, ?_, ?_, ?_, ?_, ?_, ?_, ?_, ?_, ?_, ?_⟩
  · intro h hh
    refine ⟨?_, ?_, ?_, ?_, ?_, ?_, ?_, ?_, ?_, ?_, ?_, ?_, ?_, ?_⟩
    · intro p hp w
      exact ⟨Call.LoadContent p, by simp [NULL_CHK, LoadContent, invoke, World.log, World.withMem, hh, hp]⟩
    · intro w
      exact ⟨Call.Play, by simp [NULL_CHK, Play, invoke, World.log, World.withMem, hh]⟩
    · intro w
      exact ⟨Call.Pause, by simp [NULL_CHK, Pause, invoke, World.log, World.withMem, hh]⟩
    · intro w
      exact ⟨Call.Stop, by simp [NULL_CHK, Stop, invoke, World.log, World.withMem, hh]⟩
    · intro d s w
      exact ⟨Call.GetPlaybackTexture d s,
        by simp [NULL_CHK, GetPlaybackTexture, invoke, World.log, World.withMem, hh]⟩
    · intro d p w
      exact ⟨Call.GetDurationAndPosition d p,
        by simp [NULL_CHK, GetDurationAndPosition, invoke, World.log, World.withMem, hh]⟩
    · intro p w
      exact ⟨Call.Seek p, by simp [NULL_CHK, Seek, invoke, World.log, World.withMem, hh]⟩
    · intro v w
      exact ⟨Call.SetVolume v, by simp [NULL_CHK, SetVolume, invoke, World.log, World.withMem, hh]⟩
    · intro p w
      exact ⟨Call.GetIUnknown p, by simp [NULL_CHK, GetMediaPlayer, invoke, World.log, World.withMem, hh]⟩
    · intro p w
      exact ⟨Call.IsHardware4KDecodingSupported p,
        by simp [NULL_CHK, IsHardware4KDecodingSupported, invoke, World.log, World.withMem, hh]⟩
    · intro e x w
      exact ⟨Call.SetSubtitlesCallbacks e x,
        by simp [NULL_CHK, SetSubtitlesCallbacks, invoke, World.log, World.withMem, hh]⟩
    · intro c hc w
      exact ⟨Call.GetSubtitlesTrackCount c,
        by simp [NULL_CHK, GetSubtitlesTracksCount, invoke, World.log, World.withMem, hh, hc]⟩
    · intro w
      exact ⟨Call.Release, by simp [ReleaseMediaPlayback, invoke, World.log, World.withMem, hh]⟩
    · intro i t l g w
      by_cases hi : i < countWritten X h w
      · have hi' := hi
        simp only [countWritten, memAfterCount, memBeforeCount] at hi'
        norm_num at hi'
        simp [NULL_CHK, GetSubtitlesTrack, invoke, World.log, World.withMem, World.write, World.readUInt,
          hh, hi]
        rw [if_neg (Nat.not_le.mpr hi')]
      · have hi' := hi
        simp only [countWritten, memAfterCount, memBeforeCount] at hi'
        norm_num at hi'
        simp [NULL_CHK, GetSubtitlesTrack, invoke, World.log, World.withMem, World.write, World.readUInt,
          hh, hi]
        rw [if_pos hi']
  all_goals
    intros
    intro w
    simp [NULL_CHK, Play, Pause, Stop, GetPlaybackTexture, GetDurationAndPosition, Seek, SetVolume,
      GetMediaPlayer, IsHardware4KDecodingSupported, SetSubtitlesCallbacks, LoadContent,
      GetSubtitlesTracksCount, GetSubtitlesTrack, ReleaseMediaPlayback]

/-- Witness for C3, amended: handle `7` is non-null and `Stop` on it makes one call. -/
theorem exports_null_check_then_forward_witness :
    (7 : Ptr) ≠ nullptr ∧ CallsOnce (fun w => (Stop (sampleExternal 0 S_OK) 7 w).2) 7 :=
  ⟨by decide, ((exports_null_check_then_forward (sampleExternal 0 S_OK)).1 7 (by decide)).2.2.2.1⟩

end MediaPlayback
